/-
Verification of the agent-orchestration core of ChatGemini_SakiTool
(rust_rewrite/chat_gemini_rust) against its natural-language specification.

The Rust sources are shallowly embedded: pure functions become Lean
functions, the stateful agent loop becomes explicit state passing, and
external effects (the JSON parser of serde, the tool subprocess reached
over RPC) are abstracted as function parameters.  Structure and field
names follow the Rust source (src/main.rs, src/chat/session.rs,
src/mcp/mapper.rs, src/mcp/client.rs, src/client/models.rs).
-/
import Mathlib

set_option linter.unusedVariables false

namespace ChatGemini

/-! ## JSON values

Model of `serde_json::Value`.  Numbers are modelled as integers; no claim
depends on numeric contents of a JSON document.  Objects are association
lists in insertion order (serde maps have unique keys; `get` returns the
first matching key here, which agrees on every valid map). -/

inductive Json where
  | null : Json
  | bool : Bool → Json
  | num : Int → Json
  | str : String → Json
  | arr : List Json → Json
  | obj : List (String × Json) → Json

/-- Field lookup on an object value: `Value::get(key)` (None on non-objects). -/
def Json.getField : Json → String → Option Json
  | .obj fields, key => (fields.find? (fun kv => kv.1 = key)).map (fun kv => kv.2)
  | _, _ => none

/-- `Value::as_str()`. -/
def Json.asStr : Json → Option String
  | .str s => some s
  | _ => none

/-! ## Data model (src/client/models.rs) -/

/-- `Blob` (models.rs): inline binary data. -/
structure Blob where
  mime_type : String
  data : String

/-- `FileDataPart` (models.rs). -/
structure FileDataPart where
  mime_type : String
  file_uri : String

/-- `FunctionCall` (models.rs): a model-issued tool invocation request. -/
structure FunctionCall where
  name : String
  args : Json

/-- `FunctionResponse` (models.rs): structured result returned for a call. -/
structure FunctionResponse where
  name : String
  response : Json

/-- `Part` (models.rs): a struct of five optional payload fields. -/
structure Part where
  text : Option String
  inline_data : Option Blob
  file_data : Option FileDataPart
  function_call : Option FunctionCall
  function_response : Option FunctionResponse

/-- `Part::text` constructor (models.rs). -/
def Part.mkText (t : String) : Part :=
  { text := some t, inline_data := none, file_data := none,
    function_call := none, function_response := none }

/-- The function-call part built inline in main.rs lines 335-338. -/
def Part.mkFunctionCall (fc : FunctionCall) : Part :=
  { text := none, inline_data := none, file_data := none,
    function_call := some fc, function_response := none }

/-- The function-response part built inline in main.rs lines 384-387. -/
def Part.mkFunctionResponse (fr : FunctionResponse) : Part :=
  { text := none, inline_data := none, file_data := none,
    function_call := none, function_response := some fr }

/-- `Content` (models.rs). -/
structure Content where
  role : String
  parts : List Part

/-- `Schema` (models.rs): the Gemini-side schema node.  The Rust field
`properties` is a `HashMap`; it is modelled as an association list in the
order the mapper inserts entries. -/
structure Schema where
  schema_type : String
  properties : Option (List (String × Schema))
  required : Option (List String)

/-- `FunctionDeclaration` (models.rs). -/
structure FunctionDeclaration where
  name : String
  description : String
  parameters : Option Schema

/-- `Tool` (models.rs). -/
structure Tool where
  function_declarations : List FunctionDeclaration

/-- `UsageMetadata` (models.rs). -/
structure UsageMetadata where
  prompt_token_count : Nat
  candidates_token_count : Nat
  total_token_count : Nat
  thinking_token_count : Option Nat

/-- `Candidate` (models.rs, response side). -/
structure Candidate where
  content : Option Content
  finish_reason : Option String

/-- `GenerateContentResponse` (models.rs): one decoded SSE JSON document. -/
structure GenerateContentResponse where
  candidates : Option (List Candidate)
  usage_metadata : Option UsageMetadata

/-! ## Tool-name namespacing and splitting
(src/mcp/mapper.rs line 11, src/main.rs line 346) -/

/-- The namespacing separator `__` as a character list. -/
abbrev sepUS : List Char := ['_', '_']

/-- Character-list prefix test (Rust pattern matching at one position). -/
def isPrefixChars : List Char → List Char → Bool
  | [], _ => true
  | _ :: _, [] => false
  | p :: ps, c :: cs => p == c && isPrefixChars ps cs

/-- First-occurrence split, the model of
`name.splitn(2, "__").collect::<Vec<_>>()`: `some (pre, post)` when the
separator occurs (the Rust vector `[pre, post]` of length 2), `none` when
it does not (the vector `[name]` of length 1). -/
def splitn2 (pat : List Char) : List Char → Option (List Char × List Char)
  | [] => none
  | c :: rest =>
    if isPrefixChars pat (c :: rest) then some ([], (c :: rest).drop pat.length)
    else
      match splitn2 pat rest with
      | some (pre, post) => some (c :: pre, post)
      | none => none

/-- Substring occurrence test, used to state "does not contain the
separator substring". -/
def hasSub (pat : List Char) : List Char → Bool
  | [] => false
  | c :: rest => isPrefixChars pat (c :: rest) || hasSub pat rest

/-- Namespacing (mapper.rs line 11):
`format!("{}__{}", server_name, tool.name)`. -/
def namespaceName (serverName toolName : String) : String :=
  serverName ++ "__" ++ toolName

/-! ## Schema mapping (src/mcp/mapper.rs) -/

/-- Rust `str::to_uppercase`, character-wise (the schema type strings
involved are ASCII). -/
def rustToUppercase (s : String) : String := String.mk (s.data.map Char.toUpper)

/-- `input.get("type").and_then(as_str).unwrap_or("OBJECT").to_uppercase()`
(mapper.rs line 29). -/
def schemaTypeOf (input : Json) : String :=
  rustToUppercase (((input.getField "type").bind Json.asStr).getD "OBJECT")

/-- `input.get("required").and_then(as_array)` filtered to strings, kept
only when non-empty (mapper.rs lines 40-46). -/
def requiredOf (input : Json) : Option (List String) :=
  match input.getField "required" with
  | some (Json.arr xs) =>
    let reqVec := xs.filterMap Json.asStr
    if reqVec.isEmpty then none else some reqVec
  | _ => none

mutual
/-- `map_json_schema` (mapper.rs lines 25-53): recursive structural
translation of a JSON-Schema-like node into the Gemini schema format. -/
def map_json_schema (input : Json) : Schema :=
  { schema_type := schemaTypeOf input
    properties :=
      match input with
      | Json.obj fields => propsOfFields fields
      | _ => none
    required := requiredOf input }

/-- Finds the `properties` entry (`input.get("properties")`, unique keys
in a serde map) and maps it when it is an object (mapper.rs lines 32-38). -/
def propsOfFields : List (String × Json) → Option (List (String × Schema))
  | [] => none
  | (k, v) :: rest =>
    if k = "properties" then
      match v with
      | Json.obj props => some (mapProps props)
      | _ => none
    else propsOfFields rest

/-- The recursive per-property mapping loop (mapper.rs lines 34-36). -/
def mapProps : List (String × Json) → List (String × Schema)
  | [] => []
  | (k, v) :: rest => (k, map_json_schema v) :: mapProps rest
end

/-- `McpTool` (mcp/protocol.rs): one declared tool of a server. -/
structure McpTool where
  name : String
  description : Option String
  input_schema : Json

/-- `ListToolsResult` (mcp/protocol.rs). -/
structure ListToolsResult where
  tools : List McpTool

/-- `map_mcp_tools_to_gemini` (mapper.rs lines 6-23). -/
def map_mcp_tools_to_gemini (server_name : String) (mcp_tools : ListToolsResult) : Tool :=
  { function_declarations :=
      mcp_tools.tools.map (fun tool =>
        { name := namespaceName server_name tool.name
          description := tool.description.getD ""
          parameters := some (map_json_schema tool.input_schema) }) }

/-! ## Conversation state (src/chat/session.rs)

The Rust `ChatMessage` also stamps `Local::now()` on each append; the
wall-clock timestamp is environment input unrelated to every claim and is
omitted.  `total_cost` is carried as in the source. -/

/-- `ChatMessage` (session.rs) without the wall-clock timestamp. -/
structure ChatMessage where
  role : String
  parts : List Part

/-- `ChatSession` (session.rs). -/
structure ChatSession where
  history : List ChatMessage
  total_cost : Float

/-- `ChatSession::new`. -/
def ChatSession.new : ChatSession := { history := [], total_cost := 0.0 }

/-- `ChatSession::add_user_message`. -/
def ChatSession.add_user_message (s : ChatSession) (text : String) : ChatSession :=
  { s with history := s.history ++ [{ role := "user", parts := [Part.mkText text] }] }

/-- `ChatSession::add_model_message`. -/
def ChatSession.add_model_message (s : ChatSession) (text : String) : ChatSession :=
  { s with history := s.history ++ [{ role := "model", parts := [Part.mkText text] }] }

/-- `ChatSession::add_message`: generic append of a role-tagged message. -/
def ChatSession.add_message (s : ChatSession) (role : String) (parts : List Part) : ChatSession :=
  { s with history := s.history ++ [{ role := role, parts := parts }] }

/-- `ChatSession::to_gemini_history`. -/
def ChatSession.to_gemini_history (s : ChatSession) : List Content :=
  s.history.map (fun msg => { role := msg.role, parts := msg.parts })

/-! ## Streaming response decoder (src/main.rs lines 287-320)

The decoder walks the `data: `-prefixed lines of the SSE stream.  The JSON
deserializer (`serde_json::from_str::<GenerateContentResponse>`) is an
external library; it is abstracted as a `parse` function parameter, with
`none` standing for `Err(_)` (the line is then skipped — main.rs wraps the
parse in `if let Ok(response) = ...` with no else branch). -/

/-- Rust `str::starts_with`, as a character-list prefix test. -/
def rustStartsWith (s pat : String) : Bool := isPrefixChars pat.data s.data

/-- Rust's `&line[6..]` byte slicing; the prefix stripped here, `"data: "`,
is ASCII, so dropping 6 characters agrees with dropping 6 bytes. -/
def rustDrop (s : String) (n : Nat) : String := String.mk (s.data.drop n)

/-- Rust `str::trim`: leading and trailing whitespace removed. -/
def rustTrim (s : String) : String :=
  String.mk (((s.data.dropWhile Char.isWhitespace).reverse.dropWhile Char.isWhitespace).reverse)

/-- The per-turn stream accumulator of main.rs lines 281-283:
`full_response_text`, `function_calls`, `usage_meta`. -/
structure StreamAcc where
  full_response_text : String
  function_calls : List FunctionCall
  usage_meta : Option UsageMetadata

/-- Initial accumulator (main.rs lines 281-283). -/
def initAcc : StreamAcc := { full_response_text := "", function_calls := [], usage_meta := none }

/-- Classification of one response part (main.rs lines 301-310): a text
payload is appended to the running text, a function call is pushed onto the
accumulated list. -/
def processPart (acc : StreamAcc) (p : Part) : StreamAcc :=
  let acc :=
    match p.text with
    | some t => { acc with full_response_text := acc.full_response_text ++ t }
    | none => acc
  match p.function_call with
  | some fc => { acc with function_calls := acc.function_calls ++ [fc] }
  | none => acc

/-- Walking one candidate's content parts in order (main.rs lines 299-311). -/
def processCandidate (acc : StreamAcc) (candidate : Candidate) : StreamAcc :=
  match candidate.content with
  | some content => content.parts.foldl processPart acc
  | none => acc

/-- Processing of one parsed SSE document (main.rs lines 296-313): usage
metadata, when present, overwrites the running value; then every part of
every candidate content is classified in order. -/
def processResponse (acc : StreamAcc) (r : GenerateContentResponse) : StreamAcc :=
  let acc :=
    match r.usage_metadata with
    | some meta => { acc with usage_meta := some meta }
    | none => acc
  match r.candidates with
  | some cs => cs.foldl processCandidate acc
  | none => acc

/-- Processing of one stream line (main.rs lines 291-315): only lines with
the `data: ` marker are considered; the `[DONE]` sentinel and unparseable
payloads are skipped silently. -/
def processLine (parse : String → Option GenerateContentResponse)
    (acc : StreamAcc) (line : String) : StreamAcc :=
  if rustStartsWith line "data: " then
    let jsonStr := rustDrop line 6
    if rustTrim jsonStr = "[DONE]" then acc
    else
      match parse jsonStr with
      | some response => processResponse acc response
      | none => acc
  else acc

/-- The whole decode loop over the stream's lines (main.rs lines 287-320). -/
def processLines (parse : String → Option GenerateContentResponse)
    (acc : StreamAcc) (lines : List String) : StreamAcc :=
  lines.foldl (processLine parse) acc

/-- The usage metadata carried by one line, `none` when the line carries
none or is skipped.  Stated from the spec's words to compare the decoder's
running value with "the usageMetadata carried by the last chunk that
contained it". -/
def lineUsage (parse : String → Option GenerateContentResponse)
    (line : String) : Option UsageMetadata :=
  if rustStartsWith line "data: " then
    let jsonStr := rustDrop line 6
    if rustTrim jsonStr = "[DONE]" then none
    else
      match parse jsonStr with
      | some response => response.usage_metadata
      | none => none
  else none

/-- All usage metadata values appearing in the stream, in order. -/
def usagesOf (parse : String → Option GenerateContentResponse)
    (lines : List String) : List UsageMetadata :=
  lines.filterMap (lineUsage parse)

/-! ## Tool dispatch and the agent loop (src/main.rs lines 234-411)

A registered tool server (`McpClient` in the server map) is modelled by
the function the orchestrator observes: `call_tool`, returning either the
result payload (`Ok`) or an error message (`Err`, rendered through
`e.to_string()`). -/

/-- A registered tool server as the orchestrator sees it. -/
structure McpServer where
  call_tool : String → Json → Except String Json

/-- Lookup in the `mcp_clients` map (`HashMap<String, McpClient>`),
modelled as an association list keyed by server name. -/
def lookupClient (clients : List (String × McpServer)) (name : String) : Option McpServer :=
  (clients.find? (fun kv => kv.1 = name)).map (fun kv => kv.2)

/-- Dispatch of a single accumulated function call (main.rs lines 343-380):
split the namespaced name on the first `__`; unknown format, unknown
server, tool error and tool success each produce one `FunctionResponse`. -/
def dispatchCall (clients : List (String × McpServer)) (call : FunctionCall) : FunctionResponse :=
  match splitn2 sepUS call.name.data with
  | some (serverChars, toolChars) =>
    match lookupClient clients (String.mk serverChars) with
    | some mcpClient =>
      match mcpClient.call_tool (String.mk toolChars) call.args with
      | Except.ok result =>
        { name := call.name, response := Json.obj [("result", result)] }
      | Except.error e =>
        { name := call.name, response := Json.obj [("error", Json.str e)] }
    | none =>
      { name := call.name, response := Json.obj [("error", Json.str "MCP Server not found")] }
  | none =>
    { name := call.name, response := Json.obj [("error", Json.str "Invalid tool name format")] }

/-- Outcome of one iteration of the agent loop: the updated session, the
usage reported at this iteration (only at turn completion), and whether the
loop re-enters request building (`continue` in main.rs line 390) or exits
(`break` in line 409). -/
structure StepResult where
  session : ChatSession
  reported_usage : Option UsageMetadata
  continue_loop : Bool

/-- One iteration's post-stream handling (main.rs lines 329-410), acting on
the accumulated stream state.  With function calls present: one `model`
message (text when non-empty, then the call parts) via
`session.add_message`, dispatch of every call, one `function` message with
all responses, then `continue`.  With none: the text is committed with
`session.add_model_message` when non-empty, usage is reported, and the
loop breaks. -/
def agentStep (clients : List (String × McpServer)) (session : ChatSession)
    (acc : StreamAcc) : StepResult :=
  if acc.function_calls.isEmpty then
    { session :=
        if acc.full_response_text.isEmpty then session
        else session.add_model_message acc.full_response_text
      reported_usage := acc.usage_meta
      continue_loop := false }
  else
    let modelParts :=
      (if acc.full_response_text.isEmpty then []
       else [Part.mkText acc.full_response_text])
      ++ acc.function_calls.map Part.mkFunctionCall
    let session1 := session.add_message "model" modelParts
    let responses := acc.function_calls.map (dispatchCall clients)
    let session2 := session1.add_message "function" (responses.map Part.mkFunctionResponse)
    { session := session2, reported_usage := none, continue_loop := true }

/-- Result of driving one user turn through the agent loop. -/
structure TurnResult where
  session : ChatSession
  request_count : Nat
  reported_usage : Option UsageMetadata
  completed : Bool

/-- The agent loop (main.rs lines 234-411) run against scripted stream
replies, one `StreamAcc` per generation request issued.  `request_count`
counts issued requests; `completed` is true when the loop ended through the
no-function-calls branch (control returns to awaiting user input).  An
exhausted script models `stream_generate_content` failing, which breaks the
loop without appending or reporting (main.rs lines 322-325). -/
def runAgentLoop (clients : List (String × McpServer)) (session : ChatSession) :
    List StreamAcc → TurnResult
  | [] => { session := session, request_count := 0, reported_usage := none, completed := false }
  | acc :: rest =>
    let r := agentStep clients session acc
    if r.continue_loop then
      let t := runAgentLoop clients r.session rest
      { t with request_count := t.request_count + 1 }
    else
      { session := r.session, request_count := 1,
        reported_usage := r.reported_usage, completed := true }

/-! ## Request building (src/main.rs lines 243-276) -/

/-- `ThinkingConfig` (models.rs). -/
structure ThinkingConfig where
  include_thoughts : Bool
  thinking_budget_token_count : Option Nat

/-- `GenerationConfig` (models.rs). -/
structure GenerationConfig where
  temperature : Float
  max_output_tokens : Nat
  top_p : Option Float
  top_k : Option Nat
  thinking_config : Option ThinkingConfig

/-- `GenerateContentRequest` (models.rs). -/
structure GenerateContentRequest where
  contents : List Content
  system_instruction : Option Content
  generation_config : GenerationConfig
  tools : Option (List Tool)

/-- The fields of `Settings` (config.rs) the request builder reads. -/
structure Settings where
  model_name : String
  temperature : Float
  max_output_tokens : Nat
  system_instruction : Option String

/-- Request assembly (main.rs lines 243-276): with an active cache the
contents are just the new turn's parts and the request is addressed by the
cache name with no system instruction; otherwise the full history is sent
to the configured model with the configured system instruction.  The
thinking configuration is computed beforehand (lines 253-258) and passed
through. -/
def buildRequest (active_cache_name : Option String) (settings : Settings)
    (session : ChatSession) (content_parts : List Part)
    (tools_option : Option (List Tool)) (thinking_config : Option ThinkingConfig) :
    GenerateContentRequest × String :=
  let (request_contents, request_model) :=
    match active_cache_name with
    | some cache_name => ([{ role := "user", parts := content_parts : Content }], cache_name)
    | none => (session.to_gemini_history, settings.model_name)
  ({ contents := request_contents
     system_instruction :=
       if active_cache_name.isSome then none
       else settings.system_instruction.map (fun s =>
         { role := "user", parts := [Part.mkText s] })
     generation_config :=
       { temperature := settings.temperature
         max_output_tokens := settings.max_output_tokens
         top_p := none, top_k := none, thinking_config := thinking_config }
     tools := tools_option }, request_model)

/-! ## JSON-RPC request ids (src/mcp/client.rs)

`McpClient` keeps `next_id: u64`; `McpClient::new` starts it at 1 and the
`initialize` handshake immediately issues the first request.
`send_request` uses the current counter as the outgoing id and increments
it (client.rs lines 76-92).  Ids stay far below 2^64 for any feasible
trace, so they are modelled as naturals. -/

/-- The id-relevant state of `McpClient`. -/
structure McpClientState where
  next_id : Nat

/-- The state set up by `McpClient::new` (client.rs line 22), before the
`initialize` request is sent. -/
def newClientState : McpClientState := { next_id := 1 }

/-- The id assignment of `send_request` (client.rs lines 77-78): the
request carries the current counter, which is then incremented. -/
def sendRequestId (st : McpClientState) : Nat × McpClientState :=
  (st.next_id, { next_id := st.next_id + 1 })

/-- The ids of `n` successive requests sent from state `st`. -/
def idTrace (st : McpClientState) : Nat → List Nat
  | 0 => []
  | n + 1 =>
    let (i, st') := sendRequestId st
    i :: idTrace st' n

/-! ## Lemmas about the tool-name split -/

/-- A list whose occurrence test is false at the head decomposes the test. -/
lemma hasSub_cons_false {pat : List Char} {c : Char} {rest : List Char}
    (h : hasSub pat (c :: rest) = false) :
    isPrefixChars pat (c :: rest) = false ∧ hasSub pat rest = false := by
  unfold hasSub at h
  exact Bool.or_eq_false_iff.mp h

/-- The separator's prefix test on a list with at least two elements looks
only at the first two characters. -/
lemma isPrefixChars_sep_two (x y : Char) (zs : List Char) :
    isPrefixChars sepUS (x :: y :: zs) = ((('_' : Char) == x) && (('_' : Char) == y)) := by
  simp [isPrefixChars]

/-- Appending the separator in front is a cons-form list. -/
lemma sep_append_eq (T : List Char) : sepUS ++ T = '_' :: '_' :: T := rfl

/-- The split finds the separator at the head. -/
lemma splitn2_sep_head (T : List Char) :
    splitn2 sepUS ('_' :: '_' :: T) = some ([], T) := rfl

/-- Key property of the first-occurrence split: when the left component
contains no `__` and does not end in `_`, the first occurrence of `__` in
`S ++ __ ++ T` is the inserted separator, so the split recovers the pair. -/
lemma splitn2_sep_append (T : List Char) :
    ∀ S : List Char, hasSub sepUS S = false → S.getLast? ≠ some '_' →
      splitn2 sepUS (S ++ sepUS ++ T) = some (S, T) := by
  intro S
  induction S with
  | nil =>
    intro _ _
    simp only [List.nil_append, sep_append_eq]
    exact splitn2_sep_head T
  | cons c S' ih =>
    intro hS hlast
    obtain ⟨hpre1, hrest⟩ := hasSub_cons_false hS
    cases S' with
    | nil =>
      have hc : (('_' : Char) == c) = false := by
        rw [beq_eq_false_iff_ne]
        intro h
        exact hlast (by simp [← h])
      simp only [List.cons_append, List.nil_append, sep_append_eq]
      rw [splitn2]
      rw [if_neg (by rw [isPrefixChars_sep_two, hc]; simp)]
      rw [splitn2_sep_head T]
    | cons d S'' =>
      have hlast' : (d :: S'').getLast? ≠ some '_' := by
        rw [← List.getLast?_cons_cons (a := c)]
        exact hlast
      have ihr := ih hrest hlast'
      rw [isPrefixChars_sep_two] at hpre1
      simp only [List.cons_append] at ihr ⊢
      rw [splitn2]
      rw [if_neg (by rw [isPrefixChars_sep_two, hpre1]; simp)]
      rw [ihr]

/-- The namespaced name, as characters, is the two sides around `__`. -/
lemma namespaceName_data (S T : String) :
    (namespaceName S T).data = S.data ++ sepUS ++ T.data := by
  unfold namespaceName
  rw [String.data_append, String.data_append]

/-! ## Claim C3 -/

/-- Claim C3 as frozen is false on the code: the server name `a_` and the
tool name `b` both lack the separator substring `__`, yet splitting the
namespaced name `a___b` on the first occurrence of `__` yields the pair
`(a, _b)`, not `(a_, b)` — the first occurrence starts inside the server
name's trailing underscore. -/
theorem C3_roundtrip_counterexample :
    hasSub sepUS "a_".data = false ∧ hasSub sepUS "b".data = false ∧
    splitn2 sepUS (namespaceName "a_" "b").data = some ("a".data, "_b".data) ∧
    splitn2 sepUS (namespaceName "a_" "b").data ≠ some ("a_".data, "b".data) := by
  refine ⟨by decide, by decide, by decide, by decide⟩

/-- Claim C3 (amended): for every server name S and tool name T that do not
contain the separator substring `__`, and where S additionally does not end
with the character `_`, splitting the namespaced name `S ++ __ ++ T` on the
first occurrence of `__` recovers exactly the pair (S, T). -/
theorem C3_roundtrip (S T : String)
    (hS : hasSub sepUS S.data = false)
    (hT : hasSub sepUS T.data = false)
    (hlast : S.data.getLast? ≠ some '_') :
    splitn2 sepUS (namespaceName S T).data = some (S.data, T.data) := by
  rw [namespaceName_data]
  exact splitn2_sep_append T.data S.data hS hlast

/-- Witness for C3: the server name `fs` and tool name `list` satisfy the
hypotheses, and the round-trip recovers the pair. -/
theorem C3_roundtrip_witness :
    hasSub sepUS "fs".data = false ∧
    splitn2 sepUS (namespaceName "fs" "list").data = some ("fs".data, "list".data) :=
  ⟨by decide, C3_roundtrip "fs" "list" (by decide) (by decide) (by decide)⟩

/-! ## Lemmas about the agent step -/

/-- The dispatching branch of the agent step, for a non-empty accumulated
function-call list (main.rs lines 329-390). -/
lemma agentStep_calls (clients : List (String × McpServer)) (session : ChatSession)
    (text : String) (calls : List FunctionCall) (u : Option UsageMetadata)
    (h : calls ≠ []) :
    agentStep clients session { full_response_text := text, function_calls := calls, usage_meta := u }
      = { session :=
            (session.add_message "model"
              ((if text.isEmpty then [] else [Part.mkText text]) ++ calls.map Part.mkFunctionCall)).add_message
              "function" ((calls.map (dispatchCall clients)).map Part.mkFunctionResponse)
          reported_usage := none
          continue_loop := true } := by
  unfold agentStep
  rw [if_neg (by simpa [List.isEmpty_iff] using h)]

/-- The turn-completion branch of the agent step, for an empty accumulated
function-call list (main.rs lines 392-410). -/
lemma agentStep_no_calls (clients : List (String × McpServer)) (session : ChatSession)
    (text : String) (u : Option UsageMetadata) :
    agentStep clients session { full_response_text := text, function_calls := [], usage_meta := u }
      = { session := if text.isEmpty then session else session.add_model_message text
          reported_usage := u
          continue_loop := false } := rfl

/-! ## Claim C1 -/

/-- Claim C1: for a streamed model reply whose accumulated function-call
list is non-empty, the orchestrator appends exactly one model-role message
containing the accumulated text (when non-empty) followed by the
function-call parts, then appends exactly one function-role message
containing all the structured function responses, and then issues exactly
one follow-up generation request before deciding turn completion: with a
scripted follow-up reply carrying no calls, the whole turn issues exactly
2 requests and completes with exactly these messages appended. -/
theorem C1_tool_roundtrip (clients : List (String × McpServer)) (session : ChatSession)
    (text : String) (fc : FunctionCall) (rest : List FunctionCall) (u : Option UsageMetadata)
    (text2 : String) (u2 : Option UsageMetadata) (more : List StreamAcc) :
    runAgentLoop clients session
      ({ full_response_text := text, function_calls := fc :: rest, usage_meta := u } ::
       { full_response_text := text2, function_calls := [], usage_meta := u2 } :: more)
    = { session :=
          { history := session.history
              ++ [ { role := "model", parts :=
                       (if text.isEmpty then [] else [Part.mkText text])
                       ++ (fc :: rest).map Part.mkFunctionCall },
                   { role := "function", parts :=
                       ((fc :: rest).map (dispatchCall clients)).map Part.mkFunctionResponse } ]
              ++ (if text2.isEmpty then []
                  else [{ role := "model", parts := [Part.mkText text2] }])
            total_cost := session.total_cost }
        request_count := 2
        reported_usage := u2
        completed := true } := by
  cases h1 : text.isEmpty <;> cases h2 : text2.isEmpty <;>
    simp [runAgentLoop, agentStep, ChatSession.add_message, ChatSession.add_model_message,
      h1, h2]

/-! ## Claim C2 -/

/-- Claim C2: for every model reply whose accumulated function-call list is
empty, the orchestrator appends exactly one model-role message with the
accumulated text (skipping the append when the text is empty), reports the
accumulated usage, and exits the agent loop back to awaiting user input,
issuing no follow-up generation request: the whole turn issues exactly the
1 request already made, regardless of any further scripted replies. -/
theorem C2_turn_termination (clients : List (String × McpServer)) (session : ChatSession)
    (text : String) (u : Option UsageMetadata) (more : List StreamAcc) :
    runAgentLoop clients session
      ({ full_response_text := text, function_calls := [], usage_meta := u } :: more)
    = { session :=
          { history := session.history
              ++ (if text.isEmpty then []
                  else [{ role := "model", parts := [Part.mkText text] }])
            total_cost := session.total_cost }
        request_count := 1
        reported_usage := u
        completed := true } := by
  cases h : text.isEmpty <;>
    simp [runAgentLoop, agentStep, ChatSession.add_model_message, h]

/-! ## Claim C6 -/

/-- A stub tool server whose every call succeeds with the payload
`ok = true`; used to instantiate witnesses. -/
def stubOkServer : McpServer :=
  { call_tool := fun _ _ => Except.ok (Json.obj [("ok", Json.bool true)]) }

/-- Claim C6: a function call whose namespaced server name is not present
in the registered tool-server map is dispatched to a synthetic error
function-response (`MCP Server not found`) carrying the call's name; the
response is appended in place among the others in the single function-role
message, and the turn continues (control re-enters request building). -/
theorem C6_unregistered_server (clients : List (String × McpServer))
    (name s t : String) (args : Json) (session : ChatSession) (text : String)
    (pre post : List FunctionCall) (u : Option UsageMetadata)
    (hsplit : splitn2 sepUS name.data = some (s.data, t.data))
    (hlook : lookupClient clients s = none) :
    dispatchCall clients { name := name, args := args }
      = { name := name, response := Json.obj [("error", Json.str "MCP Server not found")] }
    ∧ (pre ++ { name := name, args := args } :: post).map (dispatchCall clients)
      = pre.map (dispatchCall clients)
        ++ { name := name, response := Json.obj [("error", Json.str "MCP Server not found")] }
           :: post.map (dispatchCall clients)
    ∧ (agentStep clients session
        { full_response_text := text,
          function_calls := pre ++ { name := name, args := args } :: post,
          usage_meta := u }).continue_loop = true := by
  have hdisp : dispatchCall clients { name := name, args := args }
      = { name := name, response := Json.obj [("error", Json.str "MCP Server not found")] } := by
    unfold dispatchCall
    rw [hsplit]
    dsimp only
    rw [show String.mk s.data = s from rfl, hlook]
  refine ⟨hdisp, ?_, ?_⟩
  · simp [hdisp]
  · rw [agentStep_calls clients session text _ u (by simp)]

/-- Witness for C6: with only the server `fs` registered, the call
`web__get` is dispatched to the synthetic server-not-found response. -/
theorem C6_unregistered_server_witness :
    splitn2 sepUS "web__get".data = some ("web".data, "get".data) ∧
    dispatchCall [("fs", stubOkServer)] { name := "web__get", args := Json.null }
      = { name := "web__get", response := Json.obj [("error", Json.str "MCP Server not found")] } :=
  ⟨by decide,
   (C6_unregistered_server [("fs", stubOkServer)] "web__get" "web" "get" Json.null
      ChatSession.new "" [] [] none (by decide) rfl).1⟩

/-! ## Claim C10 -/

/-- Claim C10: a function call whose name contains no `__` at all cannot be
split into a server/tool pair; dispatch produces the synthetic response
`Invalid tool name format` carrying the original call name, appended in
place among the other responses, and the turn continues rather than
failing. -/
theorem C10_invalid_name_format (clients : List (String × McpServer))
    (name : String) (args : Json) (session : ChatSession) (text : String)
    (pre post : List FunctionCall) (u : Option UsageMetadata)
    (hsplit : splitn2 sepUS name.data = none) :
    dispatchCall clients { name := name, args := args }
      = { name := name, response := Json.obj [("error", Json.str "Invalid tool name format")] }
    ∧ (pre ++ { name := name, args := args } :: post).map (dispatchCall clients)
      = pre.map (dispatchCall clients)
        ++ { name := name, response := Json.obj [("error", Json.str "Invalid tool name format")] }
           :: post.map (dispatchCall clients)
    ∧ (agentStep clients session
        { full_response_text := text,
          function_calls := pre ++ { name := name, args := args } :: post,
          usage_meta := u }).continue_loop = true := by
  have hdisp : dispatchCall clients { name := name, args := args }
      = { name := name, response := Json.obj [("error", Json.str "Invalid tool name format")] } := by
    unfold dispatchCall
    rw [hsplit]
  refine ⟨hdisp, ?_, ?_⟩
  · simp [hdisp]
  · rw [agentStep_calls clients session text _ u (by simp)]

/-- Witness for C10: the un-namespaced call name `plainname` yields the
invalid-format response even with a server registered. -/
theorem C10_invalid_name_format_witness :
    splitn2 sepUS "plainname".data = none ∧
    dispatchCall [("fs", stubOkServer)] { name := "plainname", args := Json.null }
      = { name := "plainname", response := Json.obj [("error", Json.str "Invalid tool name format")] } :=
  ⟨by decide,
   (C10_invalid_name_format [("fs", stubOkServer)] "plainname" Json.null
      ChatSession.new "" [] [] none (by decide)).1⟩

/-! ## Claim C4 -/

/-- A `data:` line whose payload fails to parse leaves the accumulator
unchanged: main.rs wraps the parse in a pattern match with no failure arm. -/
lemma processLine_skip (parse : String → Option GenerateContentResponse)
    (bad : String) (hdata : rustStartsWith bad "data: " = true)
    (hbad : parse (rustDrop bad 6) = none) (acc : StreamAcc) :
    processLine parse acc bad = acc := by
  unfold processLine
  rw [if_pos hdata]
  simp [hbad]

/-- Claim C4: a stream containing one malformed `data:` line among
otherwise-arbitrary lines decodes to exactly the state of the same stream
without that line — every event of the valid lines (text deltas, function
calls, usage) survives, in the original order, and the malformed frame is
silently skipped rather than being fatal to the stream. -/
theorem C4_decoder_resilience (parse : String → Option GenerateContentResponse)
    (pre post : List String) (bad : String)
    (hdata : rustStartsWith bad "data: " = true)
    (hbad : parse (rustDrop bad 6) = none) :
    processLines parse initAcc (pre ++ bad :: post)
      = processLines parse initAcc (pre ++ post) := by
  unfold processLines
  rw [List.foldl_append, List.foldl_append, List.foldl_cons,
    processLine_skip parse bad hdata hbad]

/-- Sample documents for decoder witnesses: `A` parses to a pure text
delta, `B` to a text delta plus usage metadata, everything else fails. -/
def sampleUsage : UsageMetadata :=
  { prompt_token_count := 10, candidates_token_count := 5,
    total_token_count := 15, thinking_token_count := none }

/-- Parsed form of payload `A`: a text-only chunk. -/
def sampleTextResponse : GenerateContentResponse :=
  { candidates := some [ { content := some { role := "model", parts := [Part.mkText "Hello"] },
                           finish_reason := none } ]
    usage_metadata := none }

/-- Parsed form of payload `B`: a text chunk carrying the usage block. -/
def sampleUsageResponse : GenerateContentResponse :=
  { candidates := some [ { content := some { role := "model", parts := [Part.mkText " world"] },
                           finish_reason := some "STOP" } ]
    usage_metadata := some sampleUsage }

/-- A concrete stand-in for the serde deserializer over a two-document
vocabulary. -/
def sampleParse : String → Option GenerateContentResponse := fun s =>
  if s = "A" then some sampleTextResponse
  else if s = "B" then some sampleUsageResponse
  else none

/-- Witness for C4: the malformed middle line of a three-line stream is
skipped and the two valid lines still produce the text `Hello world` and
the usage block, in order. -/
theorem C4_decoder_resilience_witness :
    rustStartsWith "data: X" "data: " = true ∧
    sampleParse (rustDrop "data: X" 6) = none ∧
    processLines sampleParse initAcc ["data: A", "data: X", "data: B"]
      = processLines sampleParse initAcc ["data: A", "data: B"] ∧
    processLines sampleParse initAcc ["data: A", "data: X", "data: B"]
      = { full_response_text := "Hello world", function_calls := [],
          usage_meta := some sampleUsage } :=
  ⟨by decide, by rfl,
   C4_decoder_resilience sampleParse ["data: A"] ["data: B"] "data: X" (by decide) (by rfl),
   by rfl⟩

/-! ## Claim C5 -/

/-- Part classification never touches the usage field. -/
lemma processPart_usage (acc : StreamAcc) (p : Part) :
    (processPart acc p).usage_meta = acc.usage_meta := by
  cases htext : p.text <;> cases hfc : p.function_call <;>
    simp [processPart, htext, hfc]

/-- Folding part classification over a part list never touches usage. -/
lemma foldl_processPart_usage (parts : List Part) :
    ∀ acc : StreamAcc, (parts.foldl processPart acc).usage_meta = acc.usage_meta := by
  induction parts with
  | nil => intro acc; rfl
  | cons p ps ih =>
    intro acc
    rw [List.foldl_cons, ih, processPart_usage]

/-- Candidate processing never touches usage. -/
lemma processCandidate_usage (acc : StreamAcc) (c : Candidate) :
    (processCandidate acc c).usage_meta = acc.usage_meta := by
  cases hc : c.content <;> simp [processCandidate, hc, foldl_processPart_usage]

/-- Folding candidate processing never touches usage. -/
lemma foldl_processCandidate_usage (cs : List Candidate) :
    ∀ acc : StreamAcc, (cs.foldl processCandidate acc).usage_meta = acc.usage_meta := by
  induction cs with
  | nil => intro acc; rfl
  | cons c cs ih =>
    intro acc
    rw [List.foldl_cons, ih, processCandidate_usage]

/-- One parsed document either overwrites the usage value or leaves it. -/
lemma processResponse_usage (acc : StreamAcc) (r : GenerateContentResponse) :
    (processResponse acc r).usage_meta
      = match r.usage_metadata with
        | some m => some m
        | none => acc.usage_meta := by
  unfold processResponse
  cases hm : r.usage_metadata <;> cases hc : r.candidates <;>
    simp [hm, hc, foldl_processCandidate_usage]

/-- One stream line either overwrites the usage value with the usage it
carries or leaves the running value. -/
lemma processLine_usage (parse : String → Option GenerateContentResponse)
    (line : String) (acc : StreamAcc) :
    (processLine parse acc line).usage_meta
      = match lineUsage parse line with
        | some m => some m
        | none => acc.usage_meta := by
  unfold processLine lineUsage
  cases h1 : rustStartsWith line "data: " <;> simp [h1]
  by_cases h2 : rustTrim (rustDrop line 6) = "[DONE]" <;> simp [h2]
  cases hp : parse (rustDrop line 6) <;> simp [hp, processResponse_usage]

/-- The decoder's running usage value after a whole stream is the last
usage value any line carried, falling back to the starting value. -/
lemma processLines_usage (parse : String → Option GenerateContentResponse) :
    ∀ (lines : List String) (acc : StreamAcc),
      (processLines parse acc lines).usage_meta
        = match (usagesOf parse lines).getLast? with
          | some m => some m
          | none => acc.usage_meta := by
  intro lines
  induction lines with
  | nil => intro acc; rfl
  | cons l ls ih =>
    intro acc
    have hstep : processLines parse acc (l :: ls)
        = processLines parse (processLine parse acc l) ls := rfl
    rw [hstep, ih, processLine_usage]
    cases hl : lineUsage parse l with
    | none =>
      simp only [usagesOf, List.filterMap_cons, hl]
    | some a =>
      simp only [usagesOf, List.filterMap_cons, hl]
      cases hx : ((ls.filterMap (lineUsage parse)).getLast?) with
      | none => simp [List.getLast?_cons, List.getLastD_eq_getLast?, hx]
      | some m => simp [List.getLast?_cons, List.getLastD_eq_getLast?, hx]

/-- Claim C5: the usage totals reported at turn completion equal the
usageMetadata carried by the last chunk that contained it — each newly
seen usageMetadata overwrites the running value and values are never
summed across chunks. -/
theorem C5_usage_overwrite (parse : String → Option GenerateContentResponse)
    (lines : List String) (clients : List (String × McpServer)) (session : ChatSession)
    (h : (processLines parse initAcc lines).function_calls = []) :
    (agentStep clients session (processLines parse initAcc lines)).reported_usage
      = (usagesOf parse lines).getLast? := by
  unfold agentStep
  rw [if_pos (by simp [List.isEmpty_iff, h])]
  rw [show (processLines parse initAcc lines).usage_meta
        = match (usagesOf parse lines).getLast? with
          | some m => some m
          | none => initAcc.usage_meta
      from processLines_usage parse lines initAcc]
  cases (usagesOf parse lines).getLast? <;> rfl

/-- Witness for C5: in a two-chunk stream where only the final chunk
carries usageMetadata, exactly that chunk's values are reported. -/
theorem C5_usage_overwrite_witness :
    (processLines sampleParse initAcc ["data: A", "data: B"]).function_calls = [] ∧
    (agentStep [] ChatSession.new
        (processLines sampleParse initAcc ["data: A", "data: B"])).reported_usage
      = some sampleUsage :=
  ⟨rfl,
   (C5_usage_overwrite sampleParse ["data: A", "data: B"] [] ChatSession.new rfl).trans
     (by rfl)⟩

/-! ## Claim C7 -/

/-- Claim C7: with an active cache handle the generation request carries
only the new turn's content as a single user message, is addressed by the
cache name, and omits the system instruction; without one, the full
conversation history is sent to the configured model together with the
configured system instruction. -/
theorem C7_cache_request_shape (n : String) (settings : Settings) (session : ChatSession)
    (content_parts : List Part) (tools_option : Option (List Tool))
    (thinking_config : Option ThinkingConfig) :
    ((buildRequest (some n) settings session content_parts tools_option thinking_config).1.contents
        = [{ role := "user", parts := content_parts }]
      ∧ (buildRequest (some n) settings session content_parts tools_option thinking_config).1.system_instruction
        = none
      ∧ (buildRequest (some n) settings session content_parts tools_option thinking_config).2 = n)
    ∧ ((buildRequest none settings session content_parts tools_option thinking_config).1.contents
        = session.to_gemini_history
      ∧ (buildRequest none settings session content_parts tools_option thinking_config).1.system_instruction
        = settings.system_instruction.map (fun s => { role := "user", parts := [Part.mkText s] })
      ∧ (buildRequest none settings session content_parts tools_option thinking_config).2
        = settings.model_name) :=
  ⟨⟨rfl, rfl, rfl⟩, ⟨rfl, rfl, rfl⟩⟩

/-! ## Claim C8 -/

/-- The ids issued from a counter state `s` are the consecutive naturals
starting at `s`. -/
lemma idTrace_eq_range' : ∀ (n s : Nat), idTrace { next_id := s } n = List.range' s n := by
  intro n
  induction n with
  | zero => intro s; rfl
  | succ n ih =>
    intro s
    show s :: idTrace { next_id := s + 1 } n = List.range' s (n + 1)
    rw [ih (s + 1), List.range'_succ]

/-- Claim C8: the request ids attached to successive JSON-RPC requests of
one client are the consecutive naturals starting from 1 (the initialize
request), hence strictly monotonically increasing and never reused during
the client's lifetime. -/
theorem C8_request_ids_monotone (n : Nat) :
    idTrace newClientState n = List.range' 1 n
    ∧ (idTrace newClientState n).Pairwise (· < ·)
    ∧ (idTrace newClientState n).Nodup := by
  have h : idTrace newClientState n = List.range' 1 n := idTrace_eq_range' n 1
  refine ⟨h, ?_, ?_⟩
  · rw [h]; exact List.pairwise_lt_range' 1 n
  · rw [h]; exact List.nodup_range' 1 n

/-! ## Claim C9 -/

/-- A canonical schema family: `nestJson n` is an object schema whose
`properties` nest `n` further schema levels below it. -/
def nestJson : Nat → Json
  | 0 => Json.obj [("type", Json.str "string")]
  | n + 1 => Json.obj [("type", Json.str "object"),
      ("properties", Json.obj [("child", nestJson n)])]

/-- The full structural translation of `nestJson n`. -/
def nestSchema : Nat → Schema
  | 0 => { schema_type := "STRING", properties := none, required := none }
  | n + 1 =>
    { schema_type := "OBJECT",
      properties := some [("child", nestSchema n)], required := none }

/-- The mapper translates the nested family in full at every depth. -/
lemma map_json_schema_nest : ∀ n : Nat, map_json_schema (nestJson n) = nestSchema n := by
  intro n
  induction n with
  | zero =>
    simp [nestJson, nestSchema, map_json_schema, propsOfFields, schemaTypeOf,
      requiredOf, Json.getField, Json.asStr, rustToUppercase]
  | succ n ih =>
    simp [nestJson, nestSchema, map_json_schema, propsOfFields, mapProps,
      schemaTypeOf, requiredOf, Json.getField, Json.asStr, rustToUppercase, ih]

/-- Claim C9 as frozen is false on the code: `map_json_schema` has no
depth limit and no `SchemaTooDeep` failure — its return type carries no
error case at all.  At the explicit input `nestJson 64`, a schema nested
64 levels deep (twice the spec's own suggested conservative bound of 32),
the mapper succeeds and returns the full 64-level structural translation
instead of failing. -/
theorem C9_depth_guard_counterexample :
    map_json_schema (nestJson 64) = nestSchema 64 :=
  map_json_schema_nest 64

/-- Claim C9 (amended): the recursive schema mapping has no depth guard:
it is a total structural recursion that translates schema nodes of every
finite nesting depth in full and never fails with a `SchemaTooDeep` error
(no such error exists in the code; termination holds because parsed JSON
values are finite trees, at the price of stack usage proportional to the
nesting depth). -/
theorem C9_no_depth_limit (n : Nat) :
    map_json_schema (nestJson n) = nestSchema n :=
  map_json_schema_nest n

/-! ## The specification's concrete end-to-end scenario (spec section 8)

One user turn over the scripted two-round stream: round one requests the
tool call `fs__list`, the stub `fs` server answers, round two carries the
final text and the usage block.  Exactly the expected history and usage
result. -/

/-- A stub `fs` server answering every call with the list `["a.txt"]`. -/
def fsStubServer : McpServer :=
  { call_tool := fun _ _ => Except.ok (Json.arr [Json.str "a.txt"]) }

/-- The scenario of spec section 8 replayed through the embedded agent
loop: final history `user, model(call), function(response), model(text)`,
two requests, reported usage `10/5/15`, turn completed. -/
theorem spec_concrete_scenario :
    runAgentLoop [("fs", fsStubServer)] (ChatSession.new.add_user_message "list files")
      [ { full_response_text := "",
          function_calls := [{ name := "fs__list", args := Json.obj [] }],
          usage_meta := none },
        { full_response_text := "Found 1 file.", function_calls := [],
          usage_meta := some { prompt_token_count := 10, candidates_token_count := 5,
                               total_token_count := 15, thinking_token_count := none } } ]
    = { session :=
          { history :=
              [ { role := "user", parts := [Part.mkText "list files"] },
                { role := "model", parts :=
                    [Part.mkFunctionCall { name := "fs__list", args := Json.obj [] }] },
                { role := "function", parts :=
                    [Part.mkFunctionResponse
                      { name := "fs__list",
                        response := Json.obj [("result", Json.arr [Json.str "a.txt"])] }] },
                { role := "model", parts := [Part.mkText "Found 1 file."] } ]
            total_cost := 0.0 }
        request_count := 2
        reported_usage := some { prompt_token_count := 10, candidates_token_count := 5,
                                 total_token_count := 15, thinking_token_count := none }
        completed := true } := rfl

end ChatGemini
